import Mathlib

/-!
Formal model of the solana-dev-guide repository, centred on the concurrent
vanity-address search of src/2-wallet/wallet.ts (generateVanityWallet and its
inline worker script), together with the token-balance query of the SPL-token
script and the SOL transfer of src/4-transfer.

Strings from the source are modelled as lists of characters; machine numbers
as Nat / Int / Rat.  The asynchronous coordinator (the Promise executor of
generateVanityWallet) is modelled as an explicit state machine processing the
events its handlers react to, in the order Node's single-threaded event loop
delivers them.
-/

namespace Solana

/-- JavaScript String.prototype.toLowerCase, modelled on the ASCII range
(Base58 wallet addresses and the search patterns are ASCII). -/
def jsLower (s : List Char) : List Char := s.map Char.toLower

/-- JavaScript String.prototype.startsWith: does the second list begin with
the first list? -/
def strStarts : List Char → List Char → Bool
  | [], _ => true
  | _ :: _, [] => false
  | p :: ps, b :: bs => p == b && strStarts ps bs

/-- JavaScript String.prototype.endsWith: does the second list end with the
first list? -/
def strEnds (p b : List Char) : Bool := strStarts p.reverse b.reverse

/-- Pattern normalisation of the worker script (wallet.ts lines 203-204):
searchPrefix = prefix ? (caseSensitive ? prefix : prefix.toLowerCase()) : ''
and identically for the suffix.  A missing or empty pattern (both are falsy
in JavaScript) normalises to the empty string. -/
def searchPat (p : Option (List Char)) (caseSensitive : Bool) : List Char :=
  match p with
  | none => []
  | some s => if s.isEmpty then [] else if caseSensitive then s else jsLower s

/-- The checkAddress function of the worker script (wallet.ts lines 207-219):
fold the address when case-insensitive, then test the normalised patterns
with startsWith / endsWith, an empty pattern imposing no constraint. -/
def checkAddress (pre suf : Option (List Char)) (caseSensitive : Bool)
    (address : List Char) : Bool :=
  let sp := searchPat pre caseSensitive
  let ss := searchPat suf caseSensitive
  let addr := if caseSensitive then address else jsLower address
  if !sp.isEmpty && !strStarts sp addr then false
  else if !ss.isEmpty && !strEnds ss addr then false
  else true

/-- Modelled from the spec: the derived public address satisfies the
requested prefix/suffix under the requested case sensitivity — exact-case
comparison when caseSensitive is true, and acceptance of any letter-casing
(case-folded comparison) when caseSensitive is false.  A pattern that is
absent or empty imposes no constraint. -/
def specMatches (pre suf : Option (List Char)) (caseSensitive : Bool)
    (address : List Char) : Bool :=
  let preOk :=
    match pre with
    | none => true
    | some p =>
        p.isEmpty ||
          (if caseSensitive then strStarts p address
           else strStarts (jsLower p) (jsLower address))
  let sufOk :=
    match suf with
    | none => true
    | some s =>
        s.isEmpty ||
          (if caseSensitive then strEnds s address
           else strEnds (jsLower s) (jsLower address))
  preOk && sufOk

theorem jsLower_isEmpty (s : List Char) : (jsLower s).isEmpty = s.isEmpty := by
  cases s <;> rfl

theorem guard_chain (g1 g2 : Bool) :
    (if g1 then false else if g2 then false else true) = (!g1 && !g2) := by
  cases g1 <;> cases g2 <;> rfl

/-- C1: every address accepted by the worker's checkAddress satisfies the
requested prefix/suffix under the requested case sensitivity, and
conversely: with caseSensitive = true the comparison is exact-case (prefix
"So" rejects an address starting with "so"), with caseSensitive = false any
letter-casing of the pattern is accepted. -/
theorem c1_checkAddress_matches_requested_pattern :
    (∀ (pre suf : Option (List Char)) (cs : Bool) (address : List Char),
        checkAddress pre suf cs address = specMatches pre suf cs address)
  ∧ checkAddress (some ['S', 'o']) none true ['s', 'o', 'X'] = false
  ∧ checkAddress (some ['S', 'o']) none false ['s', 'o', 'X'] = true := by
  refine ⟨?_, by decide, by decide⟩
  intro pre suf cs address
  show (if _ then false else if _ then false else true) = _
  rw [guard_chain]
  simp only [Bool.not_and, Bool.not_not]
  rcases pre with _ | p <;> rcases suf with _ | s <;>
    (try cases p) <;> (try cases s) <;> cases cs <;>
    simp [specMatches, searchPat, jsLower]

/-- A found report posted by a worker (wallet.ts lines 236-241): the Base58
public key, the secret-key bytes, and the worker's cumulative local attempt
counter at the time of the match. -/
structure FoundMsg where
  publicKey : List Char
  secretKey : List Nat
  attempts : Nat
deriving DecidableEq

/-- Messages a worker posts to the coordinator: a found report, or a
periodic progress report carrying the batch delta (wallet.ts 246-252). -/
inductive WorkerMsg
  | found (m : FoundMsg)
  | progress (attempts : Nat)
deriving DecidableEq

/-- Events the coordinator's handlers react to, delivered one at a time by
Node's event loop: a worker message, the armed timeout firing, a worker
error, or a worker exit. -/
inductive Event
  | message (workerId : Nat) (msg : WorkerMsg)
  | timeoutFire
  | workerError (workerId : Nat)
  | workerExit (workerId : Nat) (code : Int)
deriving DecidableEq

/-- Terminal outcome of the Promise returned by generateVanityWallet: a
resolution with the winning key pair and the total attempt count the
coordinator reports at completion, or a rejection by the timeout. -/
inductive Outcome
  | resolved (publicKey : List Char) (secretKey : List Nat) (reportedTotal : Nat)
  | rejectedTimeout
deriving DecidableEq

/-- Console output of the coordinator's handlers, recorded abstractly. -/
inductive LogEntry
  | foundLine (reportedTotal : Nat)
  | timeoutLine
  | workerErrorLine (workerId : Nat)
  | workerExitLine (workerId : Nat) (code : Int)
deriving DecidableEq

/-- State owned by the coordinator inside the Promise executor of
generateVanityWallet (wallet.ts lines 159-171): the walletFound flag, the
pending timeout, the progress interval, the live worker handles, the
aggregate attempt counter, the Promise's settlement, and the log. -/
structure CoordState where
  walletFound : Bool
  timerArmed : Bool
  intervalActive : Bool
  workersAlive : List Nat
  totalAttempts : Nat
  outcome : Option Outcome
  log : List LogEntry
deriving DecidableEq

/-- Promise settlement semantics: a resolve or reject on an already settled
Promise is ignored. -/
def settle (o : Option Outcome) (x : Outcome) : Option Outcome :=
  match o with
  | some y => some y
  | none => some x

/-- One step of the coordinator, the direct translation of the handlers of
wallet.ts: the message handler (lines 272-298), the timeout handler (lines
186-193, reachable only while the timer is armed since clearTimeout
cancels it), the error handler (lines 301-306) and the exit handler (lines
308-312). -/
def step (s : CoordState) : Event → CoordState
  | .message _ (.found m) =>
      if s.walletFound then s
      else
        { walletFound := true
          timerArmed := false
          intervalActive := false
          workersAlive := []
          totalAttempts := s.totalAttempts
          outcome := settle s.outcome
            (.resolved m.publicKey m.secretKey (s.totalAttempts + m.attempts))
          log := s.log ++ [.foundLine (s.totalAttempts + m.attempts)] }
  | .message _ (.progress n) =>
      { s with totalAttempts := s.totalAttempts + n }
  | .timeoutFire =>
      if s.timerArmed then
        { s with
          timerArmed := false
          intervalActive := false
          workersAlive := []
          outcome := settle s.outcome .rejectedTimeout
          log := s.log ++ [.timeoutLine] }
      else s
  | .workerError i =>
      { s with
        workersAlive := if s.walletFound then s.workersAlive
          else s.workersAlive.erase i
        log := s.log ++ [.workerErrorLine i] }
  | .workerExit i code =>
      { s with
        log := if code ≠ 0 ∧ s.walletFound = false then
            s.log ++ [.workerExitLine i code]
          else s.log }

/-- Process a list of delivered events in order. -/
def runEvents (s : CoordState) (es : List Event) : CoordState := es.foldl step s

/-- Coordinator state right after the Promise executor has run: no match
yet, the timer armed iff the effective timeout is positive, the progress
interval running, the spawned workers alive, counter at zero, promise
pending. -/
def initState (threads : Nat) (armed : Bool) : CoordState :=
  { walletFound := false
    timerArmed := armed
    intervalActive := true
    workersAlive := List.range threads
    totalAttempts := 0
    outcome := none
    log := [] }

theorem step_outcome_mono (s : CoordState) (e : Event) (o : Outcome)
    (h : s.outcome = some o) : (step s e).outcome = some o := by
  cases e with
  | message w m =>
      cases m with
      | found fm =>
          by_cases hf : s.walletFound <;> simp [step, hf, settle, h]
      | progress n => simpa [step] using h
  | timeoutFire =>
      by_cases ht : s.timerArmed <;> simp [step, ht, settle, h]
  | workerError i => simpa [step] using h
  | workerExit i c => simpa [step] using h

theorem runEvents_outcome_mono (es : List Event) (s : CoordState) (o : Outcome)
    (h : s.outcome = some o) : (runEvents s es).outcome = some o := by
  induction es generalizing s with
  | nil => simpa [runEvents] using h
  | cons e es ih =>
      show (runEvents (step s e) es).outcome = some o
      exact ih _ (step_outcome_mono s e o h)

/-- Invariant of the coordinator: once the walletFound flag is set the
timeout has been cleared. -/
def FoundTimerInv (s : CoordState) : Prop :=
  s.walletFound = true → s.timerArmed = false

theorem step_preserves_foundTimerInv (s : CoordState) (e : Event)
    (h : FoundTimerInv s) : FoundTimerInv (step s e) := by
  cases e with
  | message w m =>
      cases m with
      | found fm =>
          by_cases hf : s.walletFound <;> intro hw <;>
            simp_all [step, FoundTimerInv]
      | progress n => intro hw; simp_all [step, FoundTimerInv]
  | timeoutFire =>
      by_cases ht : s.timerArmed <;> intro hw <;>
        simp_all [step, FoundTimerInv]
  | workerError i => intro hw; simp_all [step, FoundTimerInv]
  | workerExit i c => intro hw; simp_all [step, FoundTimerInv]

theorem runEvents_foundTimerInv (es : List Event) (s : CoordState)
    (h : FoundTimerInv s) : FoundTimerInv (runEvents s es) := by
  induction es generalizing s with
  | nil => simpa [runEvents] using h
  | cons e es ih =>
      show FoundTimerInv (runEvents (step s e) es)
      exact ih _ (step_preserves_foundTimerInv s e h)

/-- C2: the search produces at most one terminal outcome and never leaves
it: once the Promise is settled no later event changes the settlement; when
two workers report a match in succession only the first is honored (the
second report leaves the state completely unchanged); and once the search
is Found the timeout has been cleared, so a timeout event is a no-op. -/
theorem c2_single_terminal_outcome :
    (∀ (s : CoordState) (es : List Event) (o : Outcome),
        s.outcome = some o → (runEvents s es).outcome = some o)
  ∧ (∀ (s : CoordState) (w1 w2 : Nat) (m1 m2 : FoundMsg),
        s.walletFound = false → s.outcome = none →
          (step s (.message w1 (.found m1))).outcome
              = some (.resolved m1.publicKey m1.secretKey
                  (s.totalAttempts + m1.attempts))
            ∧ step (step s (.message w1 (.found m1))) (.message w2 (.found m2))
              = step s (.message w1 (.found m1)))
  ∧ (∀ (threads : Nat) (armed : Bool) (es : List Event),
        (runEvents (initState threads armed) es).walletFound = true →
          step (runEvents (initState threads armed) es) .timeoutFire
            = runEvents (initState threads armed) es) := by
  refine ⟨fun s es o h => runEvents_outcome_mono es s o h, ?_, ?_⟩
  · intro s w1 w2 m1 m2 hf ho
    constructor
    · simp [step, hf, ho, settle]
    · simp [step, hf]
  · intro threads armed es hw
    have hinv : FoundTimerInv (runEvents (initState threads armed) es) :=
      runEvents_foundTimerInv es _ (by intro h; simp [initState] at h)
    simp [step, hinv hw]

theorem c2_single_terminal_outcome_witness :
    (runEvents ⟨true, false, false, [], 5, some (.resolved ['A'] [1] 5), []⟩
        [Event.timeoutFire, Event.workerError 0]).outcome
      = some (Outcome.resolved ['A'] [1] 5)
  ∧ ((step (initState 2 true) (.message 0 (.found ⟨['A'], [1], 3⟩))).outcome
        = some (.resolved ['A'] [1] ((initState 2 true).totalAttempts + 3))
      ∧ step (step (initState 2 true) (.message 0 (.found ⟨['A'], [1], 3⟩)))
            (.message 1 (.found ⟨['B'], [2], 4⟩))
          = step (initState 2 true) (.message 0 (.found ⟨['A'], [1], 3⟩)))
  ∧ step (runEvents (initState 2 true) [.message 0 (.found ⟨['A'], [1], 3⟩)])
        .timeoutFire
      = runEvents (initState 2 true) [.message 0 (.found ⟨['A'], [1], 3⟩)] := by
  refine ⟨?_, ?_, ?_⟩
  · exact c2_single_terminal_outcome.1 _ [Event.timeoutFire, Event.workerError 0]
      (Outcome.resolved ['A'] [1] 5) rfl
  · exact c2_single_terminal_outcome.2.1 (initState 2 true) 0 1
      ⟨['A'], [1], 3⟩ ⟨['B'], [2], 4⟩ rfl rfl
  · exact c2_single_terminal_outcome.2.2 2 true
      [.message 0 (.found ⟨['A'], [1], 3⟩)] (by decide)

/-- Options object accepted by generateVanityWallet (wallet.ts 138-144); a
missing field is undefined in JavaScript, modelled as none. -/
structure VanityOptions where
  pre : Option (List Char) := none
  suf : Option (List Char) := none
  caseSensitive : Option Bool := none
  threadsCount : Option Nat := none
  timeout : Option Int := none
deriving DecidableEq

/-- JavaScript truthiness of an optional string: undefined and the empty
string are falsy, every non-empty string is truthy. -/
def jsTruthyStr (s : Option (List Char)) : Bool :=
  match s with
  | none => false
  | some l => !l.isEmpty

/-- Validation failure of generateVanityWallet (wallet.ts 150-152). -/
inductive VanityError
  | invalidRequest
deriving DecidableEq

/-- Defaulting of threadsCount (wallet.ts 155):
options.threadsCount || Math.max(1, os.cpus().length - 1); the JavaScript
|| also sends an explicit 0 to the default. -/
def resolveThreadsCount (tc : Option Nat) (cpuCount : Nat) : Nat :=
  match tc with
  | none => max 1 (cpuCount - 1)
  | some n => if n = 0 then max 1 (cpuCount - 1) else n

/-- Defaulting of the timeout (wallet.ts 156): options.timeout || 60000;
the JavaScript || also sends an explicit 0 to the 60000 ms default. -/
def effectiveTimeout (t : Option Int) : Int :=
  match t with
  | none => 60000
  | some v => if v = 0 then 60000 else v

/-- Defaulting of caseSensitive (wallet.ts 157):
options.caseSensitive !== undefined ? options.caseSensitive : true. -/
def resolveCaseSensitive (cs : Option Bool) : Bool :=
  match cs with
  | none => true
  | some b => b

/-- Condition under which generateVanityWallet arms the timeout timer
(wallet.ts 186): if (timeout > 0). -/
def timeoutArmed (t : Int) : Bool := decide (0 < t)

/-- Resolved configuration after validation and defaulting. -/
structure VanityConfig where
  threadsCount : Nat
  timeout : Int
  caseSensitive : Bool
deriving DecidableEq

/-- Validation and defaulting at the head of generateVanityWallet
(wallet.ts 150-157): throw when neither pattern is truthy, else resolve
the defaults. -/
def vanitySetup (o : VanityOptions) (cpuCount : Nat) :
    Except VanityError VanityConfig :=
  if !jsTruthyStr o.pre && !jsTruthyStr o.suf then
    .error .invalidRequest
  else
    .ok { threadsCount := resolveThreadsCount o.threadsCount cpuCount
          timeout := effectiveTimeout o.timeout
          caseSensitive := resolveCaseSensitive o.caseSensitive }

/-- Number of workers a call spawns: zero when validation throws (the
throw happens before the Promise executor and its spawn loop, wallet.ts
150-152 versus 257-267), otherwise the resolved thread count. -/
def spawnedWorkers (o : VanityOptions) (cpuCount : Nat) : Nat :=
  match vanitySetup o cpuCount with
  | .error _ => 0
  | .ok c => c.threadsCount

/-- Coordinator state right after the Promise executor has armed the timer
and spawned the workers of a validated configuration. -/
def initVanity (cfg : VanityConfig) : CoordState :=
  initState cfg.threadsCount (timeoutArmed cfg.timeout)

/-- C5: a request with neither prefix nor suffix (each absent or empty)
throws InvalidRequest during validation and spawns zero workers. -/
theorem c5_invalid_request_spawns_no_workers (o : VanityOptions)
    (cpuCount : Nat)
    (hp : o.pre = none ∨ o.pre = some [])
    (hs : o.suf = none ∨ o.suf = some []) :
    vanitySetup o cpuCount = .error .invalidRequest
      ∧ spawnedWorkers o cpuCount = 0 := by
  have hp' : jsTruthyStr o.pre = false := by
    rcases hp with h | h <;> simp [jsTruthyStr, h]
  have hs' : jsTruthyStr o.suf = false := by
    rcases hs with h | h <;> simp [jsTruthyStr, h]
  refine ⟨?_, ?_⟩
  · simp [vanitySetup, hp', hs']
  · simp [spawnedWorkers, vanitySetup, hp', hs']

theorem c5_invalid_request_spawns_no_workers_witness :
    vanitySetup ⟨none, some [], none, none, none⟩ 8 = .error .invalidRequest
      ∧ spawnedWorkers ⟨none, some [], none, none, none⟩ 8 = 0 :=
  c5_invalid_request_spawns_no_workers ⟨none, some [], none, none, none⟩ 8
    (Or.inl rfl) (Or.inr rfl)

/-- C8: when threadsCount is not given the resolved worker count is the
hardware cpu count minus one with a minimum of 1, and that many workers
are spawned; when caseSensitive is not given it resolves to true. -/
theorem c8_defaults (o : VanityOptions) (cpuCount : Nat) (cfg : VanityConfig)
    (ht : o.threadsCount = none) (hc : o.caseSensitive = none)
    (hok : vanitySetup o cpuCount = .ok cfg) :
    cfg.threadsCount = max 1 (cpuCount - 1)
      ∧ 1 ≤ cfg.threadsCount
      ∧ cfg.caseSensitive = true
      ∧ (initVanity cfg).workersAlive.length = max 1 (cpuCount - 1) := by
  have hcfg : cfg =
      { threadsCount := resolveThreadsCount o.threadsCount cpuCount
        timeout := effectiveTimeout o.timeout
        caseSensitive := resolveCaseSensitive o.caseSensitive } := by
    unfold vanitySetup at hok
    split at hok
    · simp at hok
    · injection hok with h
      exact h.symm
  subst hcfg
  refine ⟨by simp [resolveThreadsCount, ht], ?_,
    by simp [resolveCaseSensitive, hc], ?_⟩
  · simp only [resolveThreadsCount, ht]
    exact le_max_left 1 _
  · simp [initVanity, initState, resolveThreadsCount, ht]

theorem c8_defaults_witness :
    VanityConfig.threadsCount ⟨4, 60000, true⟩ = max 1 (5 - 1)
      ∧ 1 ≤ VanityConfig.threadsCount ⟨4, 60000, true⟩
      ∧ VanityConfig.caseSensitive ⟨4, 60000, true⟩ = true
      ∧ (initVanity ⟨4, 60000, true⟩).workersAlive.length = max 1 (5 - 1) :=
  c8_defaults ⟨some ['a'], none, none, none, none⟩ 5 ⟨4, 60000, true⟩
    rfl rfl rfl

/-- C3 counterexample: a request with timeoutMillis = 0 is not unbounded:
the JavaScript || replaces the explicit 0 by the 60000 ms default, the
timer guard timeout > 0 then holds, a timer is armed, and its firing
rejects the search with Timeout. -/
theorem c3_timeout_zero_is_bounded :
    effectiveTimeout (some 0) = 60000
  ∧ timeoutArmed (effectiveTimeout (some 0)) = true
  ∧ (step (initState 1 (timeoutArmed (effectiveTimeout (some 0))))
        .timeoutFire).outcome = some .rejectedTimeout := by
  refine ⟨rfl, rfl, ?_⟩
  simp [initState, step, settle, timeoutArmed, effectiveTimeout]

/-- C3 (amended): an explicit timeoutMillis = 0 (like a missing one) is
replaced by the 60000 ms default, so a timer is armed and the search is
bounded; only a negative timeoutMillis leaves the timer unarmed and the
search unbounded; for timeoutMillis > 0 the timer is armed with exactly
that duration, a timeout firing with no timer armed is a no-op, and a
timeout firing on a pending search rejects it with Timeout. -/
theorem c3_timeout_semantics :
    (∀ t : Int, 0 < t → effectiveTimeout (some t) = t
        ∧ timeoutArmed (effectiveTimeout (some t)) = true)
  ∧ (effectiveTimeout (some 0) = 60000 ∧ effectiveTimeout none = 60000
        ∧ timeoutArmed (effectiveTimeout (some 0)) = true)
  ∧ (∀ t : Int, t < 0 → timeoutArmed (effectiveTimeout (some t)) = false)
  ∧ (∀ s : CoordState, s.timerArmed = false → step s .timeoutFire = s)
  ∧ (∀ s : CoordState, s.timerArmed = true → s.outcome = none →
        (step s .timeoutFire).outcome = some .rejectedTimeout) := by
  refine ⟨?_, ⟨rfl, rfl, rfl⟩, ?_, ?_, ?_⟩
  · intro t h
    have hne : t ≠ 0 := by omega
    constructor
    · simp [effectiveTimeout, hne]
    · simp [effectiveTimeout, hne, timeoutArmed, h]
  · intro t h
    have hne : t ≠ 0 := by omega
    simp [effectiveTimeout, hne, timeoutArmed]
    omega
  · intro s h
    simp [step, h]
  · intro s h1 h2
    simp [step, h1, h2, settle]

theorem c3_timeout_semantics_witness :
    (effectiveTimeout (some 7) = 7
        ∧ timeoutArmed (effectiveTimeout (some 7)) = true)
  ∧ timeoutArmed (effectiveTimeout (some (-3))) = false
  ∧ step (initState 1 false) .timeoutFire = initState 1 false
  ∧ (step (initState 1 true) .timeoutFire).outcome = some .rejectedTimeout := by
  refine ⟨?_, ?_, ?_, ?_⟩
  · exact c3_timeout_semantics.1 7 (by decide)
  · exact c3_timeout_semantics.2.2.1 (-3) (by decide)
  · exact c3_timeout_semantics.2.2.2.1 (initState 1 false) rfl
  · exact c3_timeout_semantics.2.2.2.2 (initState 1 true) rfl rfl

/-- C6 counterexample: with two workers and no match, after both workers
have failed the live worker set is empty and yet the search has not been
escalated to any failure: the Promise is still pending (outcome none),
while the claim requires a fatal failure once zero workers remain. -/
theorem c6_all_workers_failed_no_escalation :
    (runEvents (initState 2 false) [.workerError 0, .workerError 1]).workersAlive
        = []
  ∧ (runEvents (initState 2 false) [.workerError 0, .workerError 1]).outcome
        = none := by
  exact ⟨rfl, rfl⟩

/-- C6 (amended): a worker execution error is logged and, while no match
has been found, that worker is terminated; the aggregate state and the
settlement are untouched so the remaining workers continue and the search
does not fail — and it never escalates: even after every worker has
errored the search stays pending (it is ended only by a timeout, if one is
armed). -/
theorem c6_worker_errors_isolated :
    (∀ (s : CoordState) (i : Nat), (step s (.workerError i)).outcome = s.outcome)
  ∧ (∀ (s : CoordState) (i : Nat),
        (step s (.workerError i)).log = s.log ++ [.workerErrorLine i])
  ∧ (∀ (s : CoordState) (i : Nat), s.walletFound = false →
        (step s (.workerError i)).workersAlive = s.workersAlive.erase i
          ∧ (step s (.workerError i)).totalAttempts = s.totalAttempts
          ∧ (step s (.workerError i)).walletFound = false)
  ∧ (∀ (threads : Nat) (ids : List Nat),
        (runEvents (initState threads false) (ids.map Event.workerError)).outcome
          = none) := by
  have herr : ∀ (ids : List Nat) (s : CoordState),
      (runEvents s (ids.map Event.workerError)).outcome = s.outcome := by
    intro ids
    induction ids with
    | nil => intro s; rfl
    | cons i ids ih =>
        intro s
        show (runEvents (step s (.workerError i))
            (ids.map Event.workerError)).outcome = s.outcome
        rw [ih]
        simp [step]
  refine ⟨fun s i => by simp [step], fun s i => by simp [step], ?_, ?_⟩
  · intro s i h
    refine ⟨by simp [step, h], by simp [step], by simp [step, h]⟩
  · intro threads ids
    rw [herr]
    rfl

theorem c6_worker_errors_isolated_witness :
    (step (initState 3 false) (.workerError 1)).outcome
        = (initState 3 false).outcome
  ∧ (step (initState 3 false) (.workerError 1)).log
        = (initState 3 false).log ++ [.workerErrorLine 1]
  ∧ ((step (initState 3 false) (.workerError 1)).workersAlive
          = (initState 3 false).workersAlive.erase 1
        ∧ (step (initState 3 false) (.workerError 1)).totalAttempts
          = (initState 3 false).totalAttempts
        ∧ (step (initState 3 false) (.workerError 1)).walletFound = false)
  ∧ (runEvents (initState 2 false) ([0, 1].map Event.workerError)).outcome
        = none :=
  ⟨c6_worker_errors_isolated.1 (initState 3 false) 1,
   c6_worker_errors_isolated.2.1 (initState 3 false) 1,
   c6_worker_errors_isolated.2.2.1 (initState 3 false) 1 rfl,
   c6_worker_errors_isolated.2.2.2 2 [0, 1]⟩

/-- Batch size of the worker's progress reports (wallet.ts 224). -/
def progressInterval : Nat := 1000

/-- The loop of the inline worker script (wallet.ts 222-253), parametrised
by the keypair generator (Keypair.generate is random, so gen n stands for
the public key text and secret bytes of the n-th generated keypair) and
run for at most fuel iterations: increment the local cumulative attempt
counter, generate a keypair, check its address; on a match post the found
report carrying the cumulative counter and stop; otherwise every
progressInterval attempts post a progress delta of progressInterval and
continue. -/
def workerRun (gen : Nat → List Char × List Nat) (pre suf : Option (List Char))
    (cs : Bool) : Nat → Nat → List WorkerMsg
  | 0, _ => []
  | fuel + 1, attempts =>
      let a := attempts + 1
      let kp := gen a
      if checkAddress pre suf cs kp.1 then
        [.found ⟨kp.1, kp.2, a⟩]
      else if a % progressInterval == 0 then
        .progress progressInterval :: workerRun gen pre suf cs fuel a
      else
        workerRun gen pre suf cs fuel a

/-- Keypair generator of the C4 scenario: the 1001st generated keypair is
the first whose address satisfies the prefix pattern A. -/
def c4Gen (n : Nat) : List Char × List Nat :=
  if n == 1001 then (['A', '1'], [1]) else (['B', '1'], [2])

/-- The messages the single worker of the C4 scenario posts. -/
def c4Msgs : List WorkerMsg :=
  workerRun c4Gen (some ['A']) none true 1001 0

set_option maxHeartbeats 1000000 in
set_option maxRecDepth 100000 in
/-- C4 (code bug): a single worker that matches on its 1001st attempt
first posts one progress batch of 1000 and then a found report carrying
its cumulative counter 1001; the coordinator adds that cumulative counter
to an aggregate that already contains the worker's reported batch
(wallet.ts 282), so it reports a total of 2001 although only 1001 keypairs
were generated — the already-reported batch of the winning worker is
counted twice, while the claimed accounting (batch deltas plus the
winner's in-flight attempts) gives 1001. -/
theorem c4_total_attempts_double_counted :
    c4Msgs = [.progress 1000, .found ⟨['A', '1'], [1], 1001⟩]
  ∧ (runEvents (initState 1 false) (c4Msgs.map (Event.message 0))).outcome
      = some (.resolved ['A', '1'] [1] 2001)
  ∧ 1000 + (1001 - 1000) = 1001
  ∧ (2001 : Nat) ≠ 1001 := by
  refine ⟨by decide, by decide, rfl, by decide⟩

/-- JavaScript number results relevant to the rate computation: a finite
value, Infinity, or NaN (the attempt count and the elapsed time are
nonnegative, so negative infinity cannot arise here). -/
inductive JSNum
  | fin (q : ℚ)
  | inf
  | nan
deriving DecidableEq

/-- JavaScript division: a finite quotient when the divisor is nonzero;
dividing a positive value by zero gives Infinity and zero by zero NaN. -/
def jsDiv (a b : ℚ) : JSNum :=
  if b = 0 then (if a = 0 then .nan else .inf) else .fin (a / b)

/-- Math.floor extended over Infinity and NaN as in JavaScript. -/
def jsFloor : JSNum → JSNum
  | .fin q => .fin (⌊q⌋ : ℚ)
  | .inf => .inf
  | .nan => .nan

/-- Finiteness of a JavaScript number. -/
def JSNum.isFinite : JSNum → Bool
  | .fin _ => true
  | _ => false

/-- The rate computation of updateProgress (wallet.ts 174-180):
elapsedSec = (Date.now() - startTime) / 1000 followed by
rate = Math.floor(totalAttempts / elapsedSec), with no branch anywhere on
the elapsed time being zero. -/
def updateProgressRate (totalAttempts : Nat) (elapsedMs : Int) : JSNum :=
  jsFloor (jsDiv (totalAttempts : ℚ) ((elapsedMs : ℚ) / 1000))

/-- C7 counterexample: the rate computation has no guard against a zero
elapsed time — evaluated at zero elapsed milliseconds it yields Infinity
(or NaN when the attempt count is also zero), not a well-defined finite
number. -/
theorem c7_zero_elapsed_not_finite :
    updateProgressRate 5000 0 = JSNum.inf
  ∧ (updateProgressRate 5000 0).isFinite = false
  ∧ updateProgressRate 0 0 = JSNum.nan := by
  refine ⟨?_, ?_, ?_⟩ <;>
    norm_num [updateProgressRate, jsDiv, jsFloor, JSNum.isFinite]

/-- C7 (amended): updateProgress divides by the elapsed seconds without any
zero guard: whenever the elapsed time is positive — as it is at every
actual 100 ms interval tick — the rate is a finite number, but at a zero
elapsed time the division yields Infinity (NaN when no attempts were
counted). -/
theorem c7_rate_no_zero_guard :
    (∀ (attempts : Nat) (elapsedMs : Int), 0 < elapsedMs →
        (updateProgressRate attempts elapsedMs).isFinite = true)
  ∧ (∀ attempts : Nat, updateProgressRate attempts 0
        = if attempts = 0 then JSNum.nan else JSNum.inf) := by
  constructor
  · intro attempts elapsedMs h
    have hq : (0 : ℚ) < (elapsedMs : ℚ) / 1000 := by positivity
    have hb : ((elapsedMs : ℚ) / 1000) ≠ 0 := (ne_of_lt hq).symm
    simp [updateProgressRate, jsDiv, hb, jsFloor, JSNum.isFinite]
  · intro attempts
    by_cases ha : attempts = 0
    · norm_num [updateProgressRate, jsDiv, jsFloor, ha]
    · have ha' : ((attempts : ℚ)) ≠ 0 := by exact_mod_cast ha
      norm_num [updateProgressRate, jsDiv, jsFloor, ha, ha']

theorem c7_rate_no_zero_guard_witness :
    (updateProgressRate 3 100).isFinite = true
  ∧ updateProgressRate 4 0 = (if (4 : Nat) = 0 then JSNum.nan else JSNum.inf) :=
  ⟨c7_rate_no_zero_guard.1 3 100 (by decide), c7_rate_no_zero_guard.2 4⟩

/-- Environment seen by one getTokenBalance call: the deterministically
derived associated token account address, the result of getMint, and the
result of connection.getTokenAccountBalance (the raw integer amount). -/
structure TokenQueryEnv where
  ataAddr : List Char
  mintDecimals : Except (List Char) Nat
  tokenAcctAmount : Except (List Char) Nat

/-- getTokenBalance of the SPL-token script (src/unnamed/part_000 lines
374-418): derive the associated token account address, fetch the mint's
decimals (a failure there is logged and rethrown by the outer catch), then
fetch the token account balance; when that inner lookup fails — the
account may not exist — return balance 0 with the derived address instead
of failing, otherwise scale the raw amount by the decimals. -/
def getTokenBalance (env : TokenQueryEnv) : Except (List Char) (ℚ × List Char) :=
  match env.mintDecimals with
  | .error e => .error e
  | .ok d =>
      match env.tokenAcctAmount with
      | .ok raw => .ok ((raw : ℚ) / 10 ^ d, env.ataAddr)
      | .error _ => .ok (0, env.ataAddr)

/-- C9: when the associated token account lookup fails (the account does
not exist) getTokenBalance does not fail: it returns balance 0 together
with the derived associated token account address. -/
theorem c9_missing_token_account_zero_balance (env : TokenQueryEnv) (d : Nat)
    (e : List Char) (hm : env.mintDecimals = .ok d)
    (ha : env.tokenAcctAmount = .error e) :
    getTokenBalance env = .ok (0, env.ataAddr) := by
  simp [getTokenBalance, hm, ha]

theorem c9_missing_token_account_zero_balance_witness :
    getTokenBalance ⟨['a'], .ok 6, .error ['x']⟩ = .ok (0, ['a']) :=
  c9_missing_token_account_zero_balance ⟨['a'], .ok 6, .error ['x']⟩ 6 ['x']
    rfl rfl

/-- LAMPORTS_PER_SOL of the web3 SDK: lamports per SOL. -/
def lamportsPerSol : Nat := 1000000000

/-- Failure kinds of transferSOL, in the order its checks run. -/
inductive TransferError
  | decodeFailed
  | invalidRecipient
  | insufficientBalance
  | network
deriving DecidableEq

/-- Stages of a transferSOL call, recorded as an execution trace. -/
inductive SolStep
  | decodeKey
  | validateRecipient
  | checkBalance
  | buildTx
  | simulateTx
  | submitTx
deriving DecidableEq

/-- Environment seen by one transferSOL call: whether the secret key
decodes, whether the recipient address is on the curve, the sender's
lamport balance returned by getBalance, whether submission succeeds, and
the returned signature. -/
structure SolTransferEnv where
  decodeOk : Bool
  recipientOnCurve : Bool
  senderBalance : Int
  sendOk : Bool
  txSignature : List Char

/-- transferSOL of src/4-transfer (lines 51-114): decode the secret key,
validate that the recipient is on the curve, read the sender's balance and
throw when senderBalance < amount * LAMPORTS_PER_SOL + 5000, and only
after that check construct, simulate and submit the transfer transaction.
The second component is the trace of stages that executed. -/
def transferSOL (env : SolTransferEnv) (amount : ℚ) :
    Except TransferError (List Char) × List SolStep :=
  if env.decodeOk = false then
    (.error .decodeFailed, [.decodeKey])
  else if env.recipientOnCurve = false then
    (.error .invalidRecipient, [.decodeKey, .validateRecipient])
  else if (env.senderBalance : ℚ) < amount * (lamportsPerSol : ℚ) + 5000 then
    (.error .insufficientBalance, [.decodeKey, .validateRecipient, .checkBalance])
  else if env.sendOk = false then
    (.error .network,
      [.decodeKey, .validateRecipient, .checkBalance, .buildTx, .simulateTx,
        .submitTx])
  else
    (.ok env.txSignature,
      [.decodeKey, .validateRecipient, .checkBalance, .buildTx, .simulateTx,
        .submitTx])

/-- C10: when the sender's lamport balance is strictly below the requested
amount in lamports plus the 5000-lamport fee buffer, transferSOL throws
the insufficient-balance error during the pre-check and no transaction is
ever constructed, simulated or submitted. -/
theorem c10_insufficient_balance_pre_check (env : SolTransferEnv) (amount : ℚ)
    (hd : env.decodeOk = true) (hr : env.recipientOnCurve = true)
    (hb : (env.senderBalance : ℚ) < amount * (lamportsPerSol : ℚ) + 5000) :
    transferSOL env amount
        = (.error .insufficientBalance,
            [.decodeKey, .validateRecipient, .checkBalance])
      ∧ SolStep.buildTx ∉ (transferSOL env amount).2
      ∧ SolStep.submitTx ∉ (transferSOL env amount).2 := by
  have h1 : transferSOL env amount
      = (.error .insufficientBalance,
          [.decodeKey, .validateRecipient, .checkBalance]) := by
    simp [transferSOL, hd, hr, hb]
  refine ⟨h1, ?_, ?_⟩ <;> rw [h1] <;> decide

theorem c10_insufficient_balance_pre_check_witness :
    transferSOL ⟨true, true, 5000000, true, ['s']⟩ 1
        = (.error .insufficientBalance,
            [.decodeKey, .validateRecipient, .checkBalance])
      ∧ SolStep.buildTx ∉ (transferSOL ⟨true, true, 5000000, true, ['s']⟩ 1).2
      ∧ SolStep.submitTx ∉ (transferSOL ⟨true, true, 5000000, true, ['s']⟩ 1).2 :=
  c10_insufficient_balance_pre_check ⟨true, true, 5000000, true, ['s']⟩ 1
    rfl rfl
    (by show ((5000000 : Int) : ℚ) < 1 * (lamportsPerSol : ℚ) + 5000
        norm_num [lamportsPerSol])

end Solana
